import Mathlib

/-!
Shallow embedding of the deduplication / supersession / retrieval / ranking
core of the `highforce` repository, and proofs about it.

Embedded sources:
* `app/services/preprocessing/content_deduplication.py`
  (`DedupeService.normalize_content`, `DedupeService.compute_content_hash`,
  `should_ingest_document`)
* `app/services/preprocessing/normalizer.py` (`ingest_document_universal`:
  content size limit, dedup gate call, thread supersession, event ordering)
* `app/services/rag/query.py` (`HybridQueryEngine.query`: filter construction)
* `app/services/rag/recency.py` (`DocumentTypeRecencyPostprocessor`)

Conventions: Python strings are `String` (character lists); the external
SHA-256 digest (`hashlib.sha256(...).hexdigest()`) is an abstract
`digest : String → String` parameter, since the claims only use that the
fingerprint is `digest` composed with normalization; Python floats are `ℝ`
for the decay arithmetic and `ℚ` where only comparisons occur (the sort key);
Unix timestamps are `Int`.
-/

namespace Highforce

/-! ### content_deduplication.py -/

/-- The ASCII characters matched by Python's regex `\s`
(`content_deduplication.py` line 40 uses `re.sub(r'\s+', ' ', ...)`).
The claims only involve ASCII text. -/
def pyWhitespace (c : Char) : Bool :=
  c == ' ' || c == '\t' || c == '\n' || c == '\r' || c == '\x0b' || c == '\x0c'

/-- Replace every maximal run of whitespace by a single `' '`
(the effect of `re.sub(r'\s+', ' ', normalized)`). -/
def collapseWhitespace : List Char → List Char
  | [] => []
  | [c] => [if pyWhitespace c then ' ' else c]
  | c1 :: c2 :: rest =>
    if pyWhitespace c1 && pyWhitespace c2 then collapseWhitespace (c2 :: rest)
    else (if pyWhitespace c1 then ' ' else c1) :: collapseWhitespace (c2 :: rest)

/-- Python `str.strip()`: drop leading and trailing whitespace. -/
def stripEnds (l : List Char) : List Char :=
  ((l.dropWhile pyWhitespace).reverse.dropWhile pyWhitespace).reverse

/-- `DedupeService.normalize_content`: lowercase, collapse whitespace runs
to a single space, strip both ends (lines 36-45).  `Char.toLower` matches
Python `str.lower()` on ASCII. -/
def normalize_content (content : String) : String :=
  String.mk (stripEnds (collapseWhitespace (content.data.map Char.toLower)))

/-- `DedupeService.compute_content_hash` (lines 47-59): the SHA-256 hex digest
of the normalized content; the library digest is the abstract parameter. -/
def compute_content_hash (digest : String → String) (content : String) : String :=
  digest (normalize_content content)

/-- `should_ingest_document` (lines 134-171).  `check_duplicate` abstracts the
Supabase lookup of a live document of the same tenant with this content hash
(`DedupeService.check_duplicate`), returning its id when found.  Returns
(should_ingest, content_hash). -/
def should_ingest_document (check_duplicate : String → Option Nat)
    (content : String) (skip_dedupe : Bool) (digest : String → String) :
    Bool × String :=
  let content_hash := compute_content_hash digest content
  if skip_dedupe then (true, content_hash)
  else
    match check_duplicate content_hash with
    | some _ => (false, content_hash)
    | none => (true, content_hash)

/-- Outcome of the dedup gate inside `ingest_document_universal`:
either the call returns the `skipped`/`duplicate` result (lines 184-193),
or it proceeds to create the Document row and Chunks. -/
inductive IngestDedupeOutcome where
  | duplicate (content_hash : String)
  | proceed (content_hash : String)
deriving DecidableEq, Repr

/-- The dedup step of `ingest_document_universal` (normalizer.py lines
176-195): calls `should_ingest_document` with `skip_dedupe=True`
(the literal argument at line 181). -/
def ingest_dedupe_gate (check_duplicate : String → Option Nat)
    (digest : String → String) (content : String) : IngestDedupeOutcome :=
  let r := should_ingest_document check_duplicate content true digest
  if r.1 then .proceed r.2 else .duplicate r.2

/-! ### normalizer.py: content size limit and derived artifacts -/

/-- `MAX_CHARS` (normalizer.py line 167). -/
def MAX_CHARS : Nat := 100000

/-- The size limit applied at normalizer.py lines 168-170:
`if len(content) > MAX_CHARS: content = content[:MAX_CHARS]`. -/
def limit_content (content : String) : String :=
  if content.length > MAX_CHARS then content.take MAX_CHARS else content

/-- The three text artifacts one ingestion call derives from its content:
the dedup fingerprint (STEP 2), the `content` column of the Document row
(STEP 3, line 276), and the text handed to the Qdrant chunking/embedding
pipeline (STEP 4 passes the upserted row). -/
structure IngestArtifacts where
  content_hash : String
  doc_content : String
  chunk_text : String
deriving DecidableEq, Repr

/-- How `ingest_document_universal` derives its artifacts: the size limit at
lines 166-170 runs before the dedup check, the Document upsert and the Qdrant
ingestion, so all three see the limited content. -/
def ingest_artifacts (digest : String → String) (content : String) :
    IngestArtifacts :=
  let c := limit_content content
  ⟨compute_content_hash digest c, c, c⟩

/-! ### normalizer.py: thread supersession (STEP 3.7, lines 344-422) -/

/-- A point (chunk) stored in Qdrant, as the supersession step sees it:
its id and the optional `created_at_timestamp` payload field. -/
structure TPoint where
  id : Nat
  ts : Option Int
deriving DecidableEq, Repr

/-- Lines 403-407: `old_timestamp = point.payload.get('created_at_timestamp', 0)`,
selected for deletion when `old_timestamp < new_timestamp`. -/
def points_to_delete (pts : List TPoint) (new_ts : Int) : List TPoint :=
  pts.filter (fun p => decide (p.ts.getD 0 < new_ts))

/-- The thread's chunks that survive the supersession delete (lines 409-415). -/
def thread_supersede (pts : List TPoint) (new_ts : Int) : List TPoint :=
  pts.filter (fun p => !(decide (p.ts.getD 0 < new_ts)))

/-- One complete ingestion of a thread message over the thread's live chunk
set: STEP 3.7 deletes the strictly-older chunks, then STEP 4 writes the new
message's chunks (payload timestamp = its `source_created_at`). -/
def ingest_message (live : List TPoint) (id : Nat) (ts : Int) : List TPoint :=
  thread_supersede live ts ++ [⟨id, some ts⟩]

/-- The index-affecting events of one `ingest_document_universal` call,
in program order. -/
inductive IngestEvent where
  | docRowWrite
  | supersessionDelete
  | chunkWrite
deriving DecidableEq, Repr

/-- Event order of `ingest_document_universal`: STEP 3 upserts the Document
row (line 304); STEP 3.7 runs the supersession delete (line 412) when the
guard at line 352 holds (`thread_id and thread_id.strip() and document_type
== 'email' and source_created_at`) and older chunks exist; STEP 4 writes the
new chunks to Qdrant (line 431). -/
def ingest_events (document_type : String) (thread_id : Option String)
    (has_source_ts : Bool) (has_older_chunks : Bool) : List IngestEvent :=
  let dedup_guard :=
    (match thread_id with
     | some t => !(t.data.all pyWhitespace)
     | none => false) && (document_type == "email") && has_source_ts
  [.docRowWrite] ++
    (if dedup_guard && has_older_chunks then [.supersessionDelete] else []) ++
    [.chunkWrite]

/-! ### query.py: `HybridQueryEngine.query` filter construction (lines 300-390) -/

/-- The time filter computed at lines 305-334 (override, parsed, or the
30-day default), in epoch seconds. -/
structure TimeFilterM where
  start_timestamp : Int
  end_timestamp : Int
deriving DecidableEq, Repr

/-- A `MetadataFilter(key=..., operator=FilterOperator.EQ, value=...)` as built
at lines 344-348; the only filters the code constructs are string-valued EQ. -/
structure MetadataFilterM where
  key : String
  value : String
deriving DecidableEq, Repr

/-- What the query path does after building its filters: it either executes
the similarity search with them, or rejects the call. -/
inductive RetrievalAction where
  | search (filters : List MetadataFilterM)
  | rejected
deriving DecidableEq, Repr

/-- Lines 340-375: start from an empty `filter_list`; if the caller-supplied
`filters` dict exists and holds `company_id`, append that EQ filter, else
only log a warning (line 351).  The time filters are commented out (lines
353-371), so `time_filter` is computed but never contributes a predicate. -/
def build_query_filters (filters : Option (List (String × String)))
    (_time_filter : TimeFilterM) : List MetadataFilterM :=
  match filters with
  | some fs =>
    match fs.lookup "company_id" with
    | some cid => [⟨"company_id", cid⟩]
    | none => []
  | none => []

/-- Lines 377-390: the code always proceeds to `retriever.aretrieve` with the
built filters; there is no rejection path. -/
def query_retrieval_action (filters : Option (List (String × String)))
    (time_filter : TimeFilterM) : RetrievalAction :=
  .search (build_query_filters filters time_filter)

/-- The payload fields of an indexed chunk that the built filters can test. -/
structure ChunkPayload where
  company_id : String
  created_at_timestamp : Int
deriving DecidableEq, Repr

/-- Qdrant EQ matching of one built filter against a chunk payload. -/
def filter_matches (c : ChunkPayload) (f : MetadataFilterM) : Bool :=
  f.key == "company_id" && c.company_id == f.value

/-- A chunk is a candidate of the similarity search iff it passes every
filter (`MetadataFilters` defaults to AND). -/
def chunk_passes (c : ChunkPayload) (fs : List MetadataFilterM) : Bool :=
  fs.all (filter_matches c)

/-! ### recency.py: `DocumentTypeRecencyPostprocessor` (lines 136-314) -/

/-- Python `str.lower()` on ASCII, applied to the `document_type` payload
value at line 247. -/
def lowerStr (s : String) : String :=
  String.mk (s.data.map Char.toLower)

/-- The decay half-life table: `decay_profiles` defaults to
`email → 30, attachment → 90` (lines 160-163 and 197-201) and
`default_decay_days = 90` (line 166) for every other type (line 256). -/
noncomputable def decayDaysFor (doc_type : String) : ℝ :=
  if doc_type = "email" then 30
  else if doc_type = "attachment" then 90
  else 90

/-- A retrieved candidate as the postprocessor sees it: the `document_type`
and `created_at_timestamp` metadata and the raw similarity score. -/
structure RNode where
  document_type : String
  created_at_timestamp : Option ℝ
  score : ℝ

/-- The score `_postprocess_nodes` assigns to one node (lines 245-267):
skipped (score kept) when `created_at_timestamp` is missing — Python's
`if not created_at_ts` also treats the value `0` as missing — otherwise
`score * 0.5 ** (age_days / decay_days)` with
`age_days = (now - created_at_ts) / 86400`. -/
noncomputable def postScore (now : ℝ) (node : RNode) : ℝ :=
  match node.created_at_timestamp with
  | none => node.score
  | some t =>
    if t = 0 then node.score
    else
      node.score *
        (0.5 : ℝ) ^ (((now - t) / 86400) / decayDaysFor (lowerStr node.document_type))

/-- A node as the final sort at line 287 sees it: its stable identity, raw
similarity, and (already assigned) decayed score.  Scores are `ℚ` here: the
sort only compares them. -/
structure SNode where
  doc_id : Nat
  similarity : ℚ
  score : ℚ
deriving DecidableEq, Repr

/-- Stable descending insertion: place `x` before the first element whose
score is ≤ its own; earlier input elements with equal score stay first. -/
def insertDesc (x : SNode) : List SNode → List SNode
  | [] => [x]
  | y :: ys => if y.score ≤ x.score then x :: y :: ys else y :: insertDesc x ys

/-- `nodes.sort(key=lambda x: x.score, reverse=True)` (line 287): Python's
sort is stable and `reverse=True` keeps it stable, so the result is the
stable descending reordering by `score` — and by that key only; no tie-break
on `similarity` or `doc_id` appears in the code. -/
def sortByScoreDesc : List SNode → List SNode
  | [] => []
  | x :: xs => insertDesc x (sortByScoreDesc xs)

/-- A concrete content of 100001 characters, used to exercise the size
limit. -/
def bigContent : String := String.mk (List.replicate 100001 'a')

/-! ### Helper lemmas about the stable descending sort -/

/-- The score ordering the final sort uses (descending). -/
def scoreGE (a b : SNode) : Prop := b.score ≤ a.score

/-- The subsequence of a candidate list whose decayed score equals `q`:
stability of the final sort means every such class is preserved verbatim. -/
def scoreClass (q : ℚ) (l : List SNode) : List SNode :=
  l.filter (fun y => decide (y.score = q))

lemma insertDesc_perm (x : SNode) (l : List SNode) :
    (insertDesc x l).Perm (x :: l) := by
  induction l with
  | nil => exact List.Perm.refl _
  | cons y ys ih =>
    unfold insertDesc
    by_cases h : y.score ≤ x.score
    · rw [if_pos h]
    · rw [if_neg h]
      exact List.Perm.trans (List.Perm.cons y ih) (List.Perm.swap x y ys)

lemma insertDesc_sorted (x : SNode) (l : List SNode)
    (hl : l.Sorted scoreGE) : (insertDesc x l).Sorted scoreGE := by
  induction l with
  | nil => simp [insertDesc, List.sorted_singleton]
  | cons y ys ih =>
    rw [List.sorted_cons] at hl
    obtain ⟨hy, hys⟩ := hl
    unfold insertDesc
    by_cases h : y.score ≤ x.score
    · rw [if_pos h]
      refine List.sorted_cons.mpr ⟨?_, List.sorted_cons.mpr ⟨hy, hys⟩⟩
      intro b hb
      rcases List.mem_cons.mp hb with hb | hb
      · exact hb ▸ h
      · exact le_trans (hy b hb) h
    · rw [if_neg h]
      refine List.sorted_cons.mpr ⟨?_, ih hys⟩
      intro b hb
      have hb' := (insertDesc_perm x ys).mem_iff.mp hb
      rcases List.mem_cons.mp hb' with hb' | hb'
      · exact hb' ▸ (not_le.mp h).le
      · exact hy b hb'

lemma scoreClass_cons (q : ℚ) (y : SNode) (l : List SNode) :
    scoreClass q (y :: l) =
      if y.score = q then y :: scoreClass q l else scoreClass q l := by
  by_cases hy : y.score = q
  · simp [scoreClass, List.filter_cons, hy]
  · simp [scoreClass, List.filter_cons, hy]

lemma insertDesc_scoreClass (x : SNode) (q : ℚ) (l : List SNode) :
    scoreClass q (insertDesc x l) =
      if x.score = q then x :: scoreClass q l else scoreClass q l := by
  induction l with
  | nil =>
    show scoreClass q [x] = _
    rw [scoreClass_cons]
  | cons y ys ih =>
    unfold insertDesc
    by_cases h : y.score ≤ x.score
    · rw [if_pos h, scoreClass_cons]
    · rw [if_neg h, scoreClass_cons, ih, scoreClass_cons]
      by_cases hx : x.score = q
      · by_cases hy : y.score = q
        · exact absurd (le_of_eq (hy.trans hx.symm)) h
        · simp [hx, hy]
      · simp [hx]

/-! ### Claim theorems -/

/-- C8: the content fingerprint is the digest of the text after lowercasing,
collapsing whitespace runs to a single space and trimming the ends, so
"Hello   World" and "hello world" produce the identical hash. -/
theorem content_hash_normalization_invariance :
    (∀ (digest : String → String) (content : String),
      compute_content_hash digest content = digest (normalize_content content)) ∧
    normalize_content "Hello   World" = "hello world" ∧
    (∀ digest : String → String,
      compute_content_hash digest "Hello   World" =
        compute_content_hash digest "hello world") := by
  refine ⟨fun _ _ => rfl, by decide, fun digest => ?_⟩
  show digest (normalize_content "Hello   World") =
    digest (normalize_content "hello world")
  rw [show normalize_content "Hello   World" = normalize_content "hello world"
    from by decide]

/-- C3: the dedup gate of `ingest_document_universal` is hard-wired with
`skip_dedupe=True`, so the call proceeds to create a new Document and Chunks
even when the duplicate lookup would find an identical live document of the
same tenant; it never returns the duplicate outcome. -/
theorem dedupe_gate_bypassed_always_proceeds :
    ∀ (check_duplicate : String → Option Nat) (digest : String → String)
      (content : String),
      ingest_dedupe_gate check_duplicate digest content =
        .proceed (compute_content_hash digest content) := by
  intro check_duplicate digest content
  rfl

/-- C10: content longer than `MAX_CHARS = 100000` characters is truncated to
its first 100000 characters before the duplicate check, the Document row and
the indexed chunks are produced, so all three artifacts derive from the
truncated text. -/
theorem oversized_content_truncated_before_artifacts
    (digest : String → String) (content : String)
    (h : content.length > MAX_CHARS) :
    ingest_artifacts digest content =
      ⟨compute_content_hash digest (content.take MAX_CHARS),
        content.take MAX_CHARS, content.take MAX_CHARS⟩ := by
  unfold ingest_artifacts limit_content
  rw [if_pos h]

/-- Witness for C10 at a concrete 100001-character content. -/
theorem oversized_content_truncated_before_artifacts_witness :
    bigContent.length > MAX_CHARS ∧
    ingest_artifacts (fun s => s) bigContent =
      ⟨compute_content_hash (fun s => s) (bigContent.take MAX_CHARS),
        bigContent.take MAX_CHARS, bigContent.take MAX_CHARS⟩ := by
  have h : bigContent.length > MAX_CHARS := by
    show (List.replicate 100001 'a').length > 100000
    rw [List.length_replicate]
    decide
  exact ⟨h, oversized_content_truncated_before_artifacts (fun s => s) bigContent h⟩

/-- C9: a thread chunk whose payload lacks `created_at_timestamp` is read as
timestamp 0, so it is selected for deletion by every supersession run whose
incoming message has a positive timestamp — while the rank-fusion
postprocessor leaves an untimestamped candidate's score unchanged. -/
theorem untimestamped_chunk_always_superseded
    (pts : List TPoint) (new_ts : Int) (p : TPoint)
    (now : ℝ) (dt : String) (s : ℝ)
    (hmem : p ∈ pts) (hts : p.ts = none) (hpos : 0 < new_ts) :
    p ∈ points_to_delete pts new_ts ∧
    p ∉ thread_supersede pts new_ts ∧
    postScore now ⟨dt, none, s⟩ = s := by
  have hlt : p.ts.getD 0 < new_ts := by rw [hts]; simpa using hpos
  refine ⟨List.mem_filter.mpr ⟨hmem, by simpa using hlt⟩, ?_, rfl⟩
  intro hc
  have h2 := (List.mem_filter.mp hc).2
  simp at h2
  exact absurd hlt (by simpa using h2)

/-- Witness for C9: a single untimestamped chunk is deleted by a supersession
run at timestamp 5. -/
theorem untimestamped_chunk_always_superseded_witness :
    ((⟨7, none⟩ : TPoint) ∈ ([⟨7, none⟩] : List TPoint) ∧
      (⟨7, none⟩ : TPoint).ts = none ∧ (0 : Int) < 5) ∧
    ((⟨7, none⟩ : TPoint) ∈ points_to_delete [⟨7, none⟩] 5 ∧
      (⟨7, none⟩ : TPoint) ∉ thread_supersede [⟨7, none⟩] 5 ∧
      postScore 0 ⟨"email", none, 1⟩ = 1) :=
  ⟨⟨by decide, rfl, by decide⟩,
    untimestamped_chunk_always_superseded [⟨7, none⟩] 5 ⟨7, none⟩ 0 "email" 1
      (by decide) rfl (by decide)⟩

/-- C4: thread ingestion does not converge to the maximum-timestamp message
under arbitrary orders.  Ingesting C(t=3) and then B(t=2) leaves both B's and
C's chunks live, because supersession only deletes strictly-older chunks and
never prevents ingestion of an older message; in increasing timestamp order
the live set does reduce to the latest message. -/
theorem thread_convergence_fails_out_of_order :
    ingest_message (ingest_message [] 3 3) 2 2 =
      [⟨3, some 3⟩, ⟨2, some 2⟩] ∧
    ingest_message (ingest_message [] 3 3) 2 2 ≠ [(⟨3, some 3⟩ : TPoint)] ∧
    ingest_message (ingest_message (ingest_message [] 1 1) 2 2) 3 3 =
      [⟨3, some 3⟩] := by
  refine ⟨by decide, by decide, by decide⟩

/-- C1: a query with no `company_id` in its filters is not rejected: the code
only logs a warning and executes the similarity search with an empty filter
list, searching across tenants; when `company_id` is present it becomes the
single EQ filter. -/
theorem tenant_filter_missing_query_still_searches :
    (∀ tf : TimeFilterM, query_retrieval_action none tf = .search []) ∧
    (∀ (fs : Option (List (String × String))) (tf : TimeFilterM),
      query_retrieval_action fs tf ≠ .rejected) ∧
    (∀ (cid : String) (tf : TimeFilterM),
      query_retrieval_action (some [("company_id", cid)]) tf =
        .search [⟨"company_id", cid⟩]) := by
  refine ⟨fun tf => rfl, fun fs tf => ?_, fun cid tf => rfl⟩
  simp [query_retrieval_action]

/-- C2: the temporal filter is computed but never added to the search
predicates (the code comments it out), so the built filter list is
independent of the time window and a chunk of the right tenant passes the
filters whatever its `created_at_timestamp`; in particular a chunk at
timestamp 99999 passes a search whose window is [100, 200]. -/
theorem time_filter_never_applied_to_search :
    (∀ (fs : Option (List (String × String))) (t1 t2 : TimeFilterM),
      build_query_filters fs t1 = build_query_filters fs t2) ∧
    (∀ (cid : String) (tf : TimeFilterM) (ts : Int),
      chunk_passes ⟨cid, ts⟩
        (build_query_filters (some [("company_id", cid)]) tf) = true) ∧
    (chunk_passes ⟨"t1", 99999⟩
        (build_query_filters (some [("company_id", "t1")]) ⟨100, 200⟩) = true ∧
      ¬ ((100 : Int) ≤ 99999 ∧ (99999 : Int) ≤ 200)) := by
  refine ⟨fun fs t1 t2 => rfl, fun cid tf ts => ?_, by decide, by decide⟩
  simp [chunk_passes, build_query_filters, filter_matches]

/-- C5 counterexample: in an ingestion of an email with a non-empty
`thread_id` and existing older thread chunks, the new chunks' index write
does not precede the supersession delete — the delete runs first. -/
theorem chunk_write_before_delete_refuted :
    IngestEvent.supersessionDelete ∈ ingest_events "email" (some "thread-1") true true ∧
    ¬ ((ingest_events "email" (some "thread-1") true true).indexOf .chunkWrite <
        (ingest_events "email" (some "thread-1") true true).indexOf .supersessionDelete) := by
  refine ⟨by decide, by decide⟩

/-- C5 amended: within one ingestion call of an email with a non-blank
`thread_id`, a source timestamp and existing older thread chunks, the
Document row write precedes the supersession delete and the delete precedes
the new chunks' index write; between those two events the thread can have
zero live chunks. -/
theorem supersession_delete_between_doc_and_chunk_writes (tid : String)
    (h : tid.data.all pyWhitespace = false) :
    ingest_events "email" (some tid) true true =
      [.docRowWrite, .supersessionDelete, .chunkWrite] ∧
    ((ingest_events "email" (some tid) true true).indexOf .docRowWrite <
      (ingest_events "email" (some tid) true true).indexOf .supersessionDelete) ∧
    ((ingest_events "email" (some tid) true true).indexOf .supersessionDelete <
      (ingest_events "email" (some tid) true true).indexOf .chunkWrite) ∧
    thread_supersede [⟨1, some 1⟩] 2 = [] := by
  have hl : ingest_events "email" (some tid) true true =
      [.docRowWrite, .supersessionDelete, .chunkWrite] := by
    simp [ingest_events, h]
  refine ⟨hl, ?_, ?_, by decide⟩
  · rw [hl]; decide
  · rw [hl]; decide

/-- Witness for the amended C5 at the thread id "thread-1". -/
theorem supersession_delete_between_doc_and_chunk_writes_witness :
    ("thread-1".data.all pyWhitespace = false) ∧
    ingest_events "email" (some "thread-1") true true =
      [.docRowWrite, .supersessionDelete, .chunkWrite] :=
  ⟨by decide,
    (supersession_delete_between_doc_and_chunk_writes "thread-1" (by decide)).1⟩

/-- C6 counterexample: two email candidates with equal raw similarity 0 and
distinct timestamps get equal decayed scores (0), so the older one's decayed
score is not strictly lower as the claim states for arbitrary equal
similarities. -/
theorem decay_strict_monotonicity_refuted_at_zero_similarity :
    (1 : ℝ) < 2 ∧
    ¬ (postScore 0 ⟨"email", some 1, 0⟩ < postScore 0 ⟨"email", some 2, 0⟩) := by
  have h1 : postScore 0 ⟨"email", some 1, 0⟩ = 0 := by
    norm_num [postScore]
  have h2 : postScore 0 ⟨"email", some 2, 0⟩ = 0 := by
    norm_num [postScore]
  exact ⟨one_lt_two, by rw [h1, h2]; exact lt_irrefl 0⟩

/-- C6 amended: the half-life table is 30 days for `email`, 90 days for
`attachment` and 90 days for every other document type; a candidate without
a timestamp keeps its raw score (multiplier 1); and for two candidates of
the same document type with equal strictly positive raw similarity and
nonzero timestamps, the older one's decayed score is strictly lower. -/
theorem decay_table_and_strict_monotonicity :
    (decayDaysFor "email" = 30 ∧ decayDaysFor "attachment" = 90 ∧
      ∀ t, t ≠ "email" → t ≠ "attachment" → decayDaysFor t = 90) ∧
    (∀ (now : ℝ) (dt : String) (s : ℝ), postScore now ⟨dt, none, s⟩ = s) ∧
    (∀ (now : ℝ) (dt : String) (s t1 t2 : ℝ),
      0 < s → t1 ≠ 0 → t2 ≠ 0 → t1 < t2 →
      postScore now ⟨dt, some t1, s⟩ < postScore now ⟨dt, some t2, s⟩) := by
  refine ⟨⟨?_, ?_, ?_⟩, fun now dt s => rfl, ?_⟩
  · unfold decayDaysFor
    rw [if_pos rfl]
  · unfold decayDaysFor
    rw [if_neg (by decide), if_pos rfl]
  · intro t ht1 ht2
    unfold decayDaysFor
    rw [if_neg ht1, if_neg ht2]
  · intro now dt s t1 t2 hs h1 h2 h12
    have hD : 0 < decayDaysFor (lowerStr dt) := by
      unfold decayDaysFor
      split
      · norm_num
      · split <;> norm_num
    have hexp : ((now - t2) / 86400) / decayDaysFor (lowerStr dt) <
        ((now - t1) / 86400) / decayDaysFor (lowerStr dt) := by
      rw [div_lt_div_iff_of_pos_right hD,
        div_lt_div_iff_of_pos_right (by norm_num : (0:ℝ) < 86400)]
      linarith
    have hpow : (0.5 : ℝ) ^ (((now - t1) / 86400) / decayDaysFor (lowerStr dt)) <
        (0.5 : ℝ) ^ (((now - t2) / 86400) / decayDaysFor (lowerStr dt)) :=
      Real.rpow_lt_rpow_of_exponent_gt (by norm_num) (by norm_num) hexp
    show (if t1 = 0 then s
        else s * (0.5 : ℝ) ^ (((now - t1) / 86400) / decayDaysFor (lowerStr dt))) <
      (if t2 = 0 then s
        else s * (0.5 : ℝ) ^ (((now - t2) / 86400) / decayDaysFor (lowerStr dt)))
    rw [if_neg h1, if_neg h2]
    exact mul_lt_mul_of_pos_left hpow hs

/-- Witness for the amended C6: two email candidates with similarity 1 at
timestamps 1 and 2 (seen from now = 0). -/
theorem decay_table_and_strict_monotonicity_witness :
    ((0 : ℝ) < 1 ∧ (1 : ℝ) ≠ 0 ∧ (2 : ℝ) ≠ 0 ∧ (1 : ℝ) < 2) ∧
    postScore 0 ⟨"email", some 1, 1⟩ < postScore 0 ⟨"email", some 2, 1⟩ :=
  ⟨⟨zero_lt_one, one_ne_zero, two_ne_zero, one_lt_two⟩,
    decay_table_and_strict_monotonicity.2.2 0 "email" 1 1 2
      zero_lt_one one_ne_zero two_ne_zero one_lt_two⟩

/-- C7 counterexample: the final sort has no tie-break — two candidates with
equal decayed score and equal raw similarity but different document ids keep
their input order, so permuting them in the input changes the output. -/
theorem rank_fusion_sort_determinism_refuted :
    (⟨1, 5, 5⟩ : SNode).score = (⟨2, 5, 5⟩ : SNode).score ∧
    (⟨1, 5, 5⟩ : SNode).similarity = (⟨2, 5, 5⟩ : SNode).similarity ∧
    sortByScoreDesc [⟨1, 5, 5⟩, ⟨2, 5, 5⟩] = [⟨1, 5, 5⟩, ⟨2, 5, 5⟩] ∧
    sortByScoreDesc [⟨2, 5, 5⟩, ⟨1, 5, 5⟩] = [⟨2, 5, 5⟩, ⟨1, 5, 5⟩] ∧
    sortByScoreDesc [⟨1, 5, 5⟩, ⟨2, 5, 5⟩] ≠
      sortByScoreDesc [⟨2, 5, 5⟩, ⟨1, 5, 5⟩] := by
  refine ⟨rfl, rfl, by decide, by decide, by decide⟩

/-- C7 amended: the final sort orders the candidates descending by
`decayed_score` alone, as a stable permutation of the input: for every
candidate list and every score value, the subsequence of candidates with
that decayed score is preserved verbatim (equal-score candidates keep their
input order), and no similarity or document-id tie-break is applied. -/
theorem rank_fusion_sorts_by_decayed_score_stably :
    (∀ l : List SNode, (sortByScoreDesc l).Sorted scoreGE ∧
      (sortByScoreDesc l).Perm l) ∧
    (∀ (q : ℚ) (l : List SNode),
      scoreClass q (sortByScoreDesc l) = scoreClass q l) := by
  constructor
  · intro l
    induction l with
    | nil => exact ⟨List.sorted_nil, List.Perm.refl _⟩
    | cons x xs ih =>
      refine ⟨insertDesc_sorted x _ ih.1, ?_⟩
      exact List.Perm.trans (insertDesc_perm x _) (List.Perm.cons x ih.2)
  · intro q l
    induction l with
    | nil => rfl
    | cons x xs ih =>
      show scoreClass q (insertDesc x (sortByScoreDesc xs)) = scoreClass q (x :: xs)
      rw [insertDesc_scoreClass, ih, scoreClass_cons]

end Highforce
